import Mathlib

/-!
Shallow embedding of the TLE parsing / orbital-state pipeline of
`explore_TLE_data.py` (repository Anomaly_Detection_ISS).

Text is modelled as `List Char` (Python `str`); Python `float` values are
modelled as exact rationals `ℚ` for the parsed fields and as real numbers `ℝ`
for the derived-element arithmetic (which involves a real cube root).
A Python expression that raises an uncaught exception is modelled as `none`
of an `Option`.
-/

/-- A Python string (one text line), as its character list. -/
abbrev Line := List Char

/-- Python slicing `s[a:b]` for `0 ≤ a ≤ b` (out-of-range indices clamp). -/
def pySlice (s : Line) (a b : Nat) : Line := (s.drop a).take (b - a)

/-- Python `str.strip()` with no argument: remove leading and trailing
whitespace.  (`Char.isWhitespace` covers space/tab/CR/LF, the only
whitespace occurring in TLE text.) -/
def stripWs (s : Line) : Line :=
  ((s.dropWhile Char.isWhitespace).reverse.dropWhile Char.isWhitespace).reverse

/-- Numeric value of a digit string (most significant first). -/
def natOfDigits (s : Line) : Nat :=
  s.foldl (fun n c => 10 * n + (c.toNat - 48)) 0

/-- Strip one optional leading sign; `true` means negative. -/
def splitSign : Line → Bool × Line
  | '+' :: rest => (false, rest)
  | '-' :: rest => (true, rest)
  | s => (false, s)

/-- The exact rational `± d / 10^k` (value of a decimal literal with `k`
fractional digits), built with `mkRat` so that it evaluates by kernel
reduction. -/
def decValue (neg : Bool) (d : Nat) (k : Nat) : ℚ :=
  mkRat (if neg then -(d : ℤ) else (d : ℤ)) (10 ^ k)

/-- Exact subtraction on ℚ, written with `mkRat` so that it evaluates by
kernel reduction; proved equal to `a - b` below (`ratSub_eq`). -/
def ratSub (a b : ℚ) : ℚ := mkRat (a.num * b.den - b.num * a.den) (a.den * b.den)

/-- Exact addition on ℚ, written with `mkRat` so that it evaluates by
kernel reduction; proved equal to `a + b` below (`ratAdd_eq`). -/
def ratAdd (a b : ℚ) : ℚ := mkRat (a.num * b.den + b.num * a.den) (a.den * b.den)

/-- Model of CPython `int(s)` on a string: optional surrounding whitespace,
optional sign, then a nonempty run of decimal digits; anything else raises
`ValueError` (modelled as `none`).  (Digit-group underscores, unused by TLE
fields, are not modelled.) -/
def pyInt? (s : Line) : Option ℤ :=
  let t := stripWs s
  let p := splitSign t
  if p.2.isEmpty ∨ ¬ p.2.all Char.isDigit then none
  else some (if p.1 then -(natOfDigits p.2 : ℤ) else (natOfDigits p.2 : ℤ))

/-- Model of CPython `float(s)` on a string, over exact rationals: optional
surrounding whitespace, optional sign, digits with an optional decimal point
(at least one digit on one side of the point), optional exponent part.
Anything else raises `ValueError` (modelled as `none`).  The value
`± (ipfp) · 10^(exp − |fp|)` is exact: CPython's rounding of that value to
the nearest binary float64 is below this model, which treats a Python float
as the exact decimal it was written as.  (`inf`/`nan` literals and
digit-group underscores, unused by TLE fields, are not modelled.) -/
def pyFloat? (s : Line) : Option ℚ :=
  let t := stripWs s
  let p := splitSign t
  let ip := p.2.takeWhile Char.isDigit
  let t1 := p.2.dropWhile Char.isDigit
  let fpt : Line × Line :=
    match t1 with
    | '.' :: rest => (rest.takeWhile Char.isDigit, rest.dropWhile Char.isDigit)
    | _ => ([], t1)
  if ip.isEmpty ∧ fpt.1.isEmpty then none
  else
    let digits : Nat := natOfDigits ip * 10 ^ fpt.1.length + natOfDigits fpt.1
    let withExp : ℤ → Option ℚ := fun e =>
      if 0 ≤ e then some (decValue p.1 (digits * 10 ^ e.toNat) fpt.1.length)
      else some (decValue p.1 digits (fpt.1.length + (-e).toNat))
    match fpt.2 with
    | [] => withExp 0
    | 'e' :: rest =>
      let q := splitSign rest
      let ds := q.2.takeWhile Char.isDigit
      if ds.isEmpty ∨ ¬ (q.2.dropWhile Char.isDigit).isEmpty then none
      else withExp (if q.1 then -(natOfDigits ds : ℤ) else (natOfDigits ds : ℤ))
    | 'E' :: rest =>
      let q := splitSign rest
      let ds := q.2.takeWhile Char.isDigit
      if ds.isEmpty ∨ ¬ (q.2.dropWhile Char.isDigit).isEmpty then none
      else withExp (if q.1 then -(natOfDigits ds : ℤ) else (natOfDigits ds : ℤ))
    | _ => none

theorem ratSub_eq (a b : ℚ) : ratSub a b = a - b := by
  rw [ratSub, Rat.mkRat_eq_div]
  have ha : (a.den : ℚ) ≠ 0 := Nat.cast_ne_zero.mpr a.den_nz
  have hb : (b.den : ℚ) ≠ 0 := Nat.cast_ne_zero.mpr b.den_nz
  push_cast
  rw [sub_div, eq_comm]
  conv_lhs => rw [← Rat.num_div_den a, ← Rat.num_div_den b]
  field_simp
  ring

theorem ratAdd_eq (a b : ℚ) : ratAdd a b = a + b := by
  rw [ratAdd, Rat.mkRat_eq_div]
  have ha : (a.den : ℚ) ≠ 0 := Nat.cast_ne_zero.mpr a.den_nz
  have hb : (b.den : ℚ) ≠ 0 := Nat.cast_ne_zero.mpr b.den_nz
  push_cast
  rw [add_div, eq_comm]
  conv_lhs => rw [← Rat.num_div_den a, ← Rat.num_div_den b]
  field_simp

/-! ## Epoch timestamps (datetime values) -/

/-- A `datetime.datetime` value as produced by line 109 of the source:
an anchor year together with an exact fractional-day offset from
January 1, 00:00:00 of that year.  (Rolling the offset over into
months/days/hours is presentation only and is not needed by any claim.) -/
structure Timestamp where
  year : ℤ
  daysAfterJan1 : ℚ
deriving DecidableEq

/-- `datetime(year, 1, 1)`: midnight, January 1 of `year`. -/
def jan1 (y : ℤ) : Timestamp := ⟨y, 0⟩

/-- `t + timedelta(days = d)` with exact rational arithmetic (`ratAdd` is
exact ℚ addition, see `ratAdd_eq`). -/
def Timestamp.addDays (t : Timestamp) (d : ℚ) : Timestamp :=
  ⟨t.year, ratAdd t.daysAfterJan1 d⟩

/-- The two-digit-year pivot of lines 103–106:
`if year < 57: year += 2000 else: year += 1900`. -/
def resolveYear (year : ℤ) : ℤ :=
  if year < 57 then year + 2000 else year + 1900

/-! ## parse_tle (lines 59–79) -/

/-- The dict returned by `parse_tle`: the epoch column slice (kept as a raw
string) and the six orbital elements. -/
structure ParsedTle where
  epoch : Line
  inclination : ℚ
  raan : ℚ
  eccentricity : ℚ
  arg_perigee : ℚ
  mean_anomaly : ℚ
  mean_motion : ℚ
deriving DecidableEq

/-- `parse_tle(line1, line2)` (lines 59–79): fixed-column slices of the two
element lines, each converted with `float` (the eccentricity slice with
`'0.'` prepended).  An uncaught `ValueError` from `float` is `none`. -/
def parse_tle (line1 line2 : Line) : Option ParsedTle :=
  match pyFloat? (pySlice line2 8 16), pyFloat? (pySlice line2 17 25),
      pyFloat? ('0' :: '.' :: pySlice line2 26 33), pyFloat? (pySlice line2 34 42),
      pyFloat? (pySlice line2 43 51), pyFloat? (pySlice line2 52 63) with
  | some incl, some raan, some ecc, some argp, some ma, some mm =>
    some { epoch := pySlice line1 18 32, inclination := incl, raan := raan,
           eccentricity := ecc, arg_perigee := argp, mean_anomaly := ma,
           mean_motion := mm }
  | _, _, _, _, _, _ => none

/-! ## tle_to_dataframe (lines 81–145) -/

/-- One row of the assembled table: every field of the `tle_dict` literal of
lines 112–124.  The derived columns added by the `update` of lines 130–135
are real-valued (they involve a real cube root) and are attached through
`tleDict`/`rowDict` below. -/
structure TleRow where
  name : Line
  epoch : Timestamp
  catalog_number : ℤ
  classification : Line
  inclination : ℚ
  raan : ℚ
  eccentricity : ℚ
  arg_perigee : ℚ
  mean_anomaly : ℚ
  mean_motion : ℚ
  rev_number : ℚ
deriving DecidableEq

/-- The body of the `for tle_set in tle_sets` loop of lines 93–137, for one
`tle_set`.  A `tle_set` with fewer than three lines raises `IndexError` at
`tle_set[1]`/`tle_set[2]`; any failing `int`/`float` conversion raises
`ValueError`; and `mean_motion == 0` raises `ZeroDivisionError` inside the
derived-element block (`398600.4418 / (n * n)` with
`n = mean_motion * 2 * pi / 86400`, and `1440 / mean_motion`) — each modelled
as `none`.  The epoch is
`datetime(year, 1, 1) + timedelta(days = float(day) - 1)` after the
two-digit-year pivot. -/
def buildRow : List Line → Option TleRow
  | name :: line1 :: line2 :: _ =>
    match pyInt? (pySlice line1 18 20), pyFloat? (pySlice line1 20 32),
        pyInt? (pySlice line1 2 7),
        pyFloat? (pySlice line2 8 16), pyFloat? (pySlice line2 17 25),
        pyFloat? ('0' :: '.' :: pySlice line2 26 33), pyFloat? (pySlice line2 34 42),
        pyFloat? (pySlice line2 43 51), pyFloat? (pySlice line2 52 63),
        pyFloat? (pySlice line1 63 68) with
    | some year, some day, some catalog, some incl, some raan, some ecc,
        some argp, some ma, some mm, some rev =>
      if mm = 0 then none
      else
        some { name := stripWs name,
               epoch := (jan1 (resolveYear year)).addDays (ratSub day 1),
               catalog_number := catalog,
               classification := pySlice line1 7 8,
               inclination := incl, raan := raan, eccentricity := ecc,
               arg_perigee := argp, mean_anomaly := ma, mean_motion := mm,
               rev_number := rev }
    | _, _, _, _, _, _, _, _, _, _ => none
  | _ => none

/-- The whole loop of lines 91–137: `data` accumulates one dict per
`tle_set`, in input order; an exception on any record propagates out of
`tle_to_dataframe`, discarding everything. -/
def buildRows : List (List Line) → Option (List TleRow)
  | [] => some []
  | t :: ts =>
    match buildRow t, buildRows ts with
    | some row, some rest => some (row :: rest)
    | _, _ => none

/-- `tle_to_dataframe(tle_sets)` (lines 81–145): build all rows, then
`df.set_index('epoch')` (line 143) — which raises `KeyError` on an empty
frame (no `'epoch'` column exists), and otherwise keeps the rows in order
(pandas keeps duplicate index values). -/
def tle_to_dataframe (tle_sets : List (List Line)) : Option (List TleRow) :=
  match buildRows tle_sets with
  | some rows => if rows.isEmpty then none else some rows
  | none => none

/-! ## Derived elements (lines 126–135) -/

/-- `n = tle_dict['mean_motion'] * 2 * np.pi / 86400` (line 127),
radians per second. -/
noncomputable def meanMotionRad (m : ℝ) : ℝ := m * 2 * Real.pi / 86400

/-- `a = (398600.4418 / (n * n)) ** (1/3)` (line 128), semi-major axis in
km.  Python's `** (1/3)` on a positive float base is the real power with
exponent `1/3` (modelled exactly; the float value of `1/3` rounds this
exponent, below this model). -/
noncomputable def semiMajorAxis (m : ℝ) : ℝ :=
  (398600.4418 / (meanMotionRad m * meanMotionRad m)) ^ ((1 : ℝ) / 3)

/-- `'period_minutes': 1440 / tle_dict['mean_motion']` (line 132). -/
noncomputable def periodMinutes (m : ℝ) : ℝ := 1440 / m

/-- `'apogee': a * (1 + e) - 6378.137` (line 133), km above Earth. -/
noncomputable def apogeeAlt (m e : ℝ) : ℝ := semiMajorAxis m * (1 + e) - 6378.137

/-- `'perigee': a * (1 - e) - 6378.137` (line 134), km above Earth. -/
noncomputable def perigeeAlt (m e : ℝ) : ℝ := semiMajorAxis m * (1 - e) - 6378.137

/-- The four derived quantities of the `update` block (lines 130–135). -/
structure DerivedElements where
  semi_major_axis : ℝ
  period_minutes : ℝ
  apogee : ℝ
  perigee : ℝ

open Classical in
/-- The derived-element computation of lines 126–135 as a standalone step on
`(mean_motion, eccentricity)`.  When `n * n = 0` (over ℝ: exactly when
`mean_motion = 0`) the division `398600.4418 / (n * n)` — and likewise
`1440 / mean_motion` — raises `ZeroDivisionError`, modelled as `none`;
otherwise the four values are returned with no check of their sign. -/
noncomputable def derive (m e : ℝ) : Option DerivedElements :=
  if meanMotionRad m * meanMotionRad m = 0 then none
  else some ⟨semiMajorAxis m, periodMinutes m, apogeeAlt m e, perigeeAlt m e⟩

/-! ## Spec-side derived-element formulas (spec §4.3), for the
refinement-style claims.  These transcribe the specification's words, to be
compared with the code-side definitions above. -/

/-- Spec §4.3: `n = mean_motion_rev_per_day * 2π / 86400` (radians/second). -/
noncomputable def spec_n (m : ℝ) : ℝ := m * (2 * Real.pi) / 86400

/-- Spec §4.3: `a = (μ / n²)^(1/3)` km with `μ = 398600.4418 km³/s²`. -/
noncomputable def spec_a (m : ℝ) : ℝ := (398600.4418 / (spec_n m) ^ 2) ^ ((1 : ℝ) / 3)

/-- Spec §4.3: `period_minutes = 1440 / mean_motion_rev_per_day`. -/
noncomputable def spec_period (m : ℝ) : ℝ := 1440 / m

/-- Spec §4.3: `apogee_alt_km = a * (1 + e) − R_earth`, `R_earth = 6378.137`. -/
noncomputable def spec_apogee (m e : ℝ) : ℝ := spec_a m * (1 + e) - 6378.137

/-- Spec §4.3: `perigee_alt_km = a * (1 − e) − R_earth`. -/
noncomputable def spec_perigee (m e : ℝ) : ℝ := spec_a m * (1 - e) - 6378.137

/-! ## The assembled columns, and add_state_vectors (lines 162–191) -/

/-- A Python value stored in a DataFrame cell. -/
inductive PyVal where
  | str : Line → PyVal
  | int : ℤ → PyVal
  | flt : ℚ → PyVal
  | ts : Timestamp → PyVal
  | real : ℝ → PyVal

/-- Key strings for the dict columns. -/
def nameKey : String := "name"
def epochKey : String := "epoch"
def catalogKey : String := "catalog_number"
def classificationKey : String := "classification"
def inclinationKey : String := "inclination"
def raanKey : String := "raan"
def eccentricityKey : String := "eccentricity"
def argPerigeeKey : String := "arg_perigee"
def meanAnomalyKey : String := "mean_anomaly"
def meanMotionKey : String := "mean_motion"
def revNumberKey : String := "rev_number"
def semiMajorAxisKey : String := "semi_major_axis"
def periodMinutesKey : String := "period_minutes"
def apogeeKey : String := "apogee"
def perigeeKey : String := "perigee"
def line1Key : String := "line1"
def line2Key : String := "line2"

/-- The full key/value dict of one assembled record: the `tle_dict` literal
of lines 112–124 followed by the `update` of lines 130–135, in source
order.  Note: no `'line1'`/`'line2'` entry is ever created. -/
noncomputable def tleDict (r : TleRow) : List (String × PyVal) :=
  [(nameKey, .str r.name),
   (epochKey, .ts r.epoch),
   (catalogKey, .int r.catalog_number),
   (classificationKey, .str r.classification),
   (inclinationKey, .flt r.inclination),
   (raanKey, .flt r.raan),
   (eccentricityKey, .flt r.eccentricity),
   (argPerigeeKey, .flt r.arg_perigee),
   (meanAnomalyKey, .flt r.mean_anomaly),
   (meanMotionKey, .flt r.mean_motion),
   (revNumberKey, .flt r.rev_number),
   (semiMajorAxisKey, .real (semiMajorAxis (r.mean_motion : ℝ))),
   (periodMinutesKey, .real (periodMinutes (r.mean_motion : ℝ))),
   (apogeeKey, .real (apogeeAlt (r.mean_motion : ℝ) (r.eccentricity : ℝ))),
   (perigeeKey, .real (perigeeAlt (r.mean_motion : ℝ) (r.eccentricity : ℝ)))]

/-- The columns of a row as seen by `df.iterrows()` in `add_state_vectors`:
after `df.set_index('epoch')` (line 143) the `'epoch'` column has moved to
the index, so a row holds the remaining columns; `row[k]` on a missing key
raises `KeyError`, modelled by a failing lookup. -/
noncomputable def rowDict (r : TleRow) : List (String × PyVal) :=
  (tleDict r).filter (fun kv => ¬ (kv.1 == epochKey))

/-- The `for idx, row in df.iterrows()` loop of lines 170–182:
`twoline2rv(row['line1'], row['line2'], wgs84)` followed by
`satellite.propagate(idx.year, ..., idx.second)`.  The sgp4 propagator is an
external library (not part of this repository's source), so it is a
parameter `propagate`, abstracting both `twoline2rv` and `.propagate` (the
decomposition of the epoch index into calendar fields is folded into the
`Timestamp` argument).  A `KeyError` on `row['line1']`/`row['line2']` — or a
non-string value reaching `twoline2rv` — aborts the whole call (`none`):
there is no per-row exception handling. -/
noncomputable def stateVecRows {σ : Type} (propagate : Line → Line → Timestamp → σ) :
    List TleRow → Option (List (TleRow × σ))
  | [] => some []
  | row :: rest =>
    match (rowDict row).lookup line1Key, (rowDict row).lookup line2Key with
    | some (PyVal.str l1), some (PyVal.str l2) =>
      match stateVecRows propagate rest with
      | some rs => some ((row, propagate l1 l2 row.epoch) :: rs)
      | none => none
    | _, _ => none

/-- `add_state_vectors(df)` (lines 162–191): run the per-row loop over every
row; on success the position/velocity results are attached as new columns
(modelled as the returned pairs). -/
noncomputable def add_state_vectors {σ : Type}
    (propagate : Line → Line → Timestamp → σ) (df : List TleRow) :
    Option (List (TleRow × σ)) :=
  stateVecRows propagate df

/-! ## Concrete inputs: the canonical ISS TLE record, and a malformed one -/

/-- Name line of the canonical ISS TLE example. -/
def issName : Line := ("ISS (ZARYA)").toList

/-- Element line 1 of the canonical ISS TLE example (69 characters). -/
def issL1 : Line :=
  ("1 25544U 98067A   08264.51782528 -.00002182  00000-0 -11606-4 0  2927").toList

/-- Element line 2 of the canonical ISS TLE example (69 characters). -/
def issL2 : Line :=
  ("2 25544  51.6416 247.4627 0006703 130.5360 325.0288 15.72125391563537").toList

/-- Element line 2 with a different catalog number (99999) in columns 3–7. -/
def issL2mis : Line :=
  ("2 99999  51.6416 247.4627 0006703 130.5360 325.0288 15.72125391563537").toList

/-- The ISS record as a 3-line `tle_set`. -/
def issSet : List Line := [issName, issL1, issL2]

/-- A malformed `tle_set`: its element lines are too short for the numeric
column slices, so every conversion of them raises `ValueError`. -/
def badSet : List Line := [("BAD").toList, ("1 x").toList, ("2 y").toList]

/-- The row `buildRow` produces from `issSet` (epoch 2008, day-of-year
264.51782528, so 263.51782528 fractional days after January 1). -/
def issRow : TleRow :=
  { name := issName,
    epoch := ⟨2008, decValue false 26351782528 8⟩,
    catalog_number := 25544,
    classification := ['U'],
    inclination := decValue false 516416 4,
    raan := decValue false 2474627 4,
    eccentricity := decValue false 6703 7,
    arg_perigee := decValue false 1305360 4,
    mean_anomaly := decValue false 3250288 4,
    mean_motion := decValue false 1572125391 8,
    rev_number := decValue false 292 0 }

/-! ## Helper lemmas -/

/-- Model validation: `pyFloat?`/`pyInt?` agree with CPython `float`/`int`
on representative TLE column contents. -/
theorem py_number_model_checks :
    pyFloat? ((" 51.6416").toList) = some (decValue false 516416 4) ∧
    pyFloat? (("-.00002182").toList) = some (decValue true 2182 8) ∧
    pyFloat? (("5e2").toList) = some (decValue false 500 0) ∧
    pyFloat? (("1.5E-2").toList) = some (decValue false 15 3) ∧
    pyFloat? ((".").toList) = none ∧
    pyFloat? (("1 2").toList) = none ∧
    pyFloat? (("").toList) = none ∧
    pyInt? (("08").toList) = some 8 ∧
    pyInt? (("  292").toList) = some 292 ∧
    pyInt? (("2x").toList) = none := by
  decide

/-- `buildRow` on the canonical ISS record. -/
theorem buildRow_iss : buildRow issSet = some issRow := by decide

/-- `buildRow` on the malformed record fails. -/
theorem buildRow_bad : buildRow badSet = none := by decide

/-- The assembled dataframe of the single ISS record. -/
theorem tdf_iss : tle_to_dataframe [issSet] = some [issRow] := by decide

/-- The assembled dataframe of the ISS record given twice. -/
theorem tdf_iss2 : tle_to_dataframe [issSet, issSet] = some [issRow, issRow] := by
  decide

/-- A successful `buildRows` run produces exactly one row per input record. -/
theorem buildRows_length (sets : List (List Line)) (rows : List TleRow)
    (h : buildRows sets = some rows) : rows.length = sets.length := by
  induction sets generalizing rows with
  | nil =>
    unfold buildRows at h
    cases h
    rfl
  | cons t ts ih =>
    unfold buildRows at h
    split at h
    · cases h
      simp only [List.length_cons]
      rename_i heq1 heq2
      rw [ih _ heq2]
    · cases h

/-- If any member record fails, the whole `buildRows` run fails. -/
theorem buildRows_none_of_mem (sets : List (List Line)) (s : List Line)
    (hmem : s ∈ sets) (hbad : buildRow s = none) : buildRows sets = none := by
  induction sets with
  | nil => cases hmem
  | cons t ts ih =>
    rcases List.mem_cons.mp hmem with rfl | hm
    · unfold buildRows
      rw [hbad]
    · unfold buildRows
      rw [ih hm]
      cases buildRow t <;> rfl

/-- Inversion of a successful `buildRow`: every column conversion succeeded,
the mean motion is nonzero, and the row is the dict of lines 112–124. -/
theorem buildRow_some_inv {name line1 line2 : Line} {rest : List Line} {row : TleRow}
    (h : buildRow (name :: line1 :: line2 :: rest) = some row) :
    ∃ year day catalog incl raan ecc argp ma mm rev,
      pyInt? (pySlice line1 18 20) = some year ∧
      pyFloat? (pySlice line1 20 32) = some day ∧
      pyInt? (pySlice line1 2 7) = some catalog ∧
      pyFloat? (pySlice line2 8 16) = some incl ∧
      pyFloat? (pySlice line2 17 25) = some raan ∧
      pyFloat? ('0' :: '.' :: pySlice line2 26 33) = some ecc ∧
      pyFloat? (pySlice line2 34 42) = some argp ∧
      pyFloat? (pySlice line2 43 51) = some ma ∧
      pyFloat? (pySlice line2 52 63) = some mm ∧
      pyFloat? (pySlice line1 63 68) = some rev ∧
      mm ≠ 0 ∧
      row = { name := stripWs name,
              epoch := (jan1 (resolveYear year)).addDays (ratSub day 1),
              catalog_number := catalog,
              classification := pySlice line1 7 8,
              inclination := incl, raan := raan, eccentricity := ecc,
              arg_perigee := argp, mean_anomaly := ma, mean_motion := mm,
              rev_number := rev } := by
  simp only [buildRow] at h
  cases h1 : pyInt? (pySlice line1 18 20) with
  | none => rw [h1] at h; exact Option.noConfusion h
  | some year =>
  cases h2 : pyFloat? (pySlice line1 20 32) with
  | none => rw [h1, h2] at h; exact Option.noConfusion h
  | some day =>
  cases h3 : pyInt? (pySlice line1 2 7) with
  | none => rw [h1, h2, h3] at h; exact Option.noConfusion h
  | some catalog =>
  cases h4 : pyFloat? (pySlice line2 8 16) with
  | none => rw [h1, h2, h3, h4] at h; exact Option.noConfusion h
  | some incl =>
  cases h5 : pyFloat? (pySlice line2 17 25) with
  | none => rw [h1, h2, h3, h4, h5] at h; exact Option.noConfusion h
  | some raan =>
  cases h6 : pyFloat? ('0' :: '.' :: pySlice line2 26 33) with
  | none => rw [h1, h2, h3, h4, h5, h6] at h; exact Option.noConfusion h
  | some ecc =>
  cases h7 : pyFloat? (pySlice line2 34 42) with
  | none => rw [h1, h2, h3, h4, h5, h6, h7] at h; exact Option.noConfusion h
  | some argp =>
  cases h8 : pyFloat? (pySlice line2 43 51) with
  | none => rw [h1, h2, h3, h4, h5, h6, h7, h8] at h; exact Option.noConfusion h
  | some ma =>
  cases h9 : pyFloat? (pySlice line2 52 63) with
  | none => rw [h1, h2, h3, h4, h5, h6, h7, h8, h9] at h; exact Option.noConfusion h
  | some mm =>
  cases h10 : pyFloat? (pySlice line1 63 68) with
  | none => rw [h1, h2, h3, h4, h5, h6, h7, h8, h9, h10] at h; exact Option.noConfusion h
  | some rev =>
  rw [h1, h2, h3, h4, h5, h6, h7, h8, h9, h10] at h
  replace h : (if mm = 0 then none else some
      { name := stripWs name,
        epoch := (jan1 (resolveYear year)).addDays (ratSub day 1),
        catalog_number := catalog, classification := pySlice line1 7 8,
        inclination := incl, raan := raan, eccentricity := ecc,
        arg_perigee := argp, mean_anomaly := ma, mean_motion := mm,
        rev_number := rev }) = some row := h
  by_cases hmm0 : mm = 0
  · rw [if_pos hmm0] at h
    exact Option.noConfusion h
  · rw [if_neg hmm0] at h
    cases h
    exact ⟨year, day, catalog, incl, raan, ecc, argp, ma, mm, rev,
      rfl, rfl, rfl, rfl, rfl, rfl, rfl, rfl, rfl, rfl, hmm0, rfl⟩

/-- No assembled row has a `'line1'` column: `tle_dict` (lines 112–135)
never stores the raw element lines. -/
theorem rowDict_lookup_line1 (r : TleRow) : (rowDict r).lookup line1Key = none := rfl

/-- `add_state_vectors` on any dataframe with at least one row fails at
`row['line1']` (a `KeyError`), no matter what the external propagator is. -/
theorem add_state_vectors_cons_none {σ : Type} (propagate : Line → Line → Timestamp → σ)
    (r : TleRow) (rest : List TleRow) :
    add_state_vectors propagate (r :: rest) = none := rfl

/-! ## The claims -/

/-- C1: the claim states that every record of the assembled dataset retains
the two raw element-line strings verbatim and that `add_state_vectors` can
read them back (`row['line1']`, `row['line2']`).  In fact `tle_to_dataframe`
never stores a `line1`/`line2` column, so on its output — here the canonical
ISS record, on which assembly itself succeeds — `add_state_vectors` fails
with a `KeyError` at the very first row, for every possible external
propagator.  This contradicts both the spec's data model and the source's
own `main`, which pipes `get_satellite_dataframe` straight into
`add_state_vectors`: a code bug. -/
theorem c1_raw_lines_not_retained :
    ∀ (σ : Type) (propagate : Line → Line → Timestamp → σ),
      (tle_to_dataframe [issSet]).map (add_state_vectors propagate) = some none := by
  intro σ propagate
  rw [tdf_iss]
  rfl

/-- C2 counterexample: feeding the same ISS record twice, the assembled
dataset keeps both rows, which share the `(catalog_number, epoch)` key —
so the claimed de-duplication invariant is false. -/
theorem c2_duplicates_kept_counterexample :
    (tle_to_dataframe [issSet, issSet]).map
        (fun df => df.map fun r => (r.catalog_number, r.epoch)) =
      some [(25544, ⟨2008, decValue false 26351782528 8⟩),
            (25544, ⟨2008, decValue false 26351782528 8⟩)] := by
  rw [tdf_iss2]
  rfl

/-- C2 (amended): `tle_to_dataframe` performs no de-duplication at all:
a successful assembly has exactly one row per input record, in input order,
duplicate `(catalog_number, epoch)` keys included. -/
theorem c2_no_dedup_one_row_per_record (sets : List (List Line)) (df : List TleRow)
    (h : tle_to_dataframe sets = some df) : df.length = sets.length := by
  unfold tle_to_dataframe at h
  split at h
  · rename_i rows heq
    split at h
    · exact Option.noConfusion h
    · cases h
      exact buildRows_length sets df heq
  · exact Option.noConfusion h

/-- C2 witness: the amended statement at the duplicated ISS input. -/
theorem c2_no_dedup_one_row_per_record_witness :
    ([issRow, issRow] : List TleRow).length = ([issSet, issSet] : List (List Line)).length :=
  c2_no_dedup_one_row_per_record [issSet, issSet] [issRow, issRow] tdf_iss2

/-- C3 counterexample: the ISS record assembles fine on its own, but adding
one malformed record makes the whole assembly fail — the good record is not
processed, contradicting the claim that one bad record never aborts the
rest. -/
theorem c3_one_bad_record_aborts_counterexample :
    tle_to_dataframe [issSet] = some [issRow] ∧
      tle_to_dataframe [issSet, badSet] = none := by
  constructor
  · exact tdf_iss
  · decide

/-- C3 (amended): `tle_to_dataframe` has no per-record error handling: if
any input record fails to convert (`buildRow s = none`, an uncaught
exception in the loop body), the entire assembly fails and no dataset is
produced; likewise `add_state_vectors` marks no propagation status (see C1:
it aborts wholesale on its first row). -/
theorem c3_any_bad_record_aborts_assembly (sets : List (List Line)) (s : List Line)
    (hmem : s ∈ sets) (hbad : buildRow s = none) :
    tle_to_dataframe sets = none := by
  unfold tle_to_dataframe
  rw [buildRows_none_of_mem sets s hmem hbad]

/-- C3 witness: the amended statement at the concrete mixed input. -/
theorem c3_any_bad_record_aborts_assembly_witness :
    tle_to_dataframe [issSet, badSet] = none :=
  c3_any_bad_record_aborts_assembly [issSet, badSet] badSet (by decide) buildRow_bad

/-- C4 counterexample: `parse_tle` succeeds on two lines whose catalog-number
columns 3–7 differ (no `CatalogMismatch` is possible), and also on lines of
32 and 63 characters (no `TooShort` under-69 check is possible) — refuting
the claimed error classification. -/
theorem c4_no_validation_counterexample :
    pySlice issL1 2 7 ≠ pySlice issL2mis 2 7 ∧
      (parse_tle issL1 issL2mis).isSome = true ∧
      (issL1.take 32).length < 69 ∧ (issL2.take 63).length < 69 ∧
      (parse_tle (issL1.take 32) (issL2.take 63)).isSome = true := by
  decide

/-- C4 (amended): `parse_tle` validates nothing: it succeeds exactly when
the six numeric column slices of `line2` convert as floats (eccentricity as
`'0.'` + columns 27–33); `line1` is only sliced for the epoch string and
never parsed, line lengths, leading characters and catalog-number agreement
are never checked, and any failure is an uncaught `ValueError` from
`float`, not a classified error value. -/
theorem c4_parse_tle_succeeds_iff_numeric (line1 line2 : Line) :
    (parse_tle line1 line2).isSome = true ↔
      ((pyFloat? (pySlice line2 8 16)).isSome = true ∧
       (pyFloat? (pySlice line2 17 25)).isSome = true ∧
       (pyFloat? ('0' :: '.' :: pySlice line2 26 33)).isSome = true ∧
       (pyFloat? (pySlice line2 34 42)).isSome = true ∧
       (pyFloat? (pySlice line2 43 51)).isSome = true ∧
       (pyFloat? (pySlice line2 52 63)).isSome = true) := by
  unfold parse_tle
  cases pyFloat? (pySlice line2 8 16) <;>
    cases pyFloat? (pySlice line2 17 25) <;>
      cases pyFloat? ('0' :: '.' :: pySlice line2 26 33) <;>
        cases pyFloat? (pySlice line2 34 42) <;>
          cases pyFloat? (pySlice line2 43 51) <;>
            cases pyFloat? (pySlice line2 52 63) <;> simp

/-- C5 counterexample: at `mean_motion = −1 ≤ 0` the derived-element
computation of lines 126–135 raises nothing and returns a value — no
explicit error or sentinel is surfaced, refuting the claim. -/
theorem c5_nonpositive_mean_motion_counterexample :
    ((-1 : ℝ) ≤ 0) ∧ (derive (-1) 0).isSome = true := by
  refine ⟨by norm_num, ?_⟩
  have hn : meanMotionRad (-1) < 0 := by
    unfold meanMotionRad
    apply div_neg_of_neg_of_pos
    · nlinarith [Real.pi_pos]
    · norm_num
  rw [derive, if_neg (mul_ne_zero hn.ne hn.ne)]
  rfl

/-- C5 (amended): the derived-element computation raises `ZeroDivisionError`
only at `mean_motion = 0`; for every `mean_motion < 0` it silently returns
its usual formula output — including a negative `period_minutes` — with no
error or sentinel. -/
theorem c5_negative_mean_motion_silent (m e : ℝ) (hm : m < 0) :
    derive m e = some ⟨semiMajorAxis m, periodMinutes m, apogeeAlt m e, perigeeAlt m e⟩ ∧
      periodMinutes m < 0 := by
  have hn : meanMotionRad m < 0 := by
    unfold meanMotionRad
    apply div_neg_of_neg_of_pos
    · nlinarith [Real.pi_pos]
    · norm_num
  constructor
  · rw [derive, if_neg (mul_ne_zero hn.ne hn.ne)]
  · unfold periodMinutes
    apply div_neg_of_pos_of_neg
    · norm_num
    · exact hm

/-- C5 witness: the amended statement at `mean_motion = −1`. -/
theorem c5_negative_mean_motion_silent_witness :
    ((-1 : ℝ) < 0) ∧
      (derive (-1) 0 =
          some ⟨semiMajorAxis (-1), periodMinutes (-1), apogeeAlt (-1) 0, perigeeAlt (-1) 0⟩ ∧
        periodMinutes (-1) < 0) :=
  ⟨by norm_num, c5_negative_mean_motion_silent (-1) 0 (by norm_num)⟩

/-- C6: for mean motion `m > 0` the code's derived elements (lines 126–135)
are exactly the spec's formulas: `n = m·2π/86400 rad/s`,
`a = (398600.4418 / n²)^(1/3)` km, `period_minutes = 1440/m`,
`apogee = a(1+e) − 6378.137`, `perigee = a(1−e) − 6378.137`. -/
theorem c6_derived_element_formulas (m e : ℝ) (hm : 0 < m) :
    meanMotionRad m = spec_n m ∧
      semiMajorAxis m = spec_a m ∧
      periodMinutes m = spec_period m ∧
      apogeeAlt m e = spec_apogee m e ∧
      perigeeAlt m e = spec_perigee m e := by
  have h1 : meanMotionRad m = spec_n m := by
    unfold meanMotionRad spec_n
    ring
  have h2 : semiMajorAxis m = spec_a m := by
    unfold semiMajorAxis spec_a
    rw [h1, pow_two]
  exact ⟨h1, h2, rfl,
    by unfold apogeeAlt spec_apogee; rw [h2],
    by unfold perigeeAlt spec_perigee; rw [h2]⟩

/-- C6 witness: the formulas at `m = 1`, `e = 0`. -/
theorem c6_derived_element_formulas_witness :
    (0 : ℝ) < 1 ∧
      (meanMotionRad 1 = spec_n 1 ∧ semiMajorAxis 1 = spec_a 1 ∧
        periodMinutes 1 = spec_period 1 ∧ apogeeAlt 1 0 = spec_apogee 1 0 ∧
        perigeeAlt 1 0 = spec_perigee 1 0) :=
  ⟨by norm_num, c6_derived_element_formulas 1 0 (by norm_num)⟩

/-- C7: for every two-digit year `0 ≤ y ≤ 99`, the pivot of lines 103–106
resolves the full year to `2000 + y` when `y < 57` and `1900 + y`
otherwise. -/
theorem c7_epoch_year_pivot (y : ℤ) (h0 : 0 ≤ y) (h99 : y ≤ 99) :
    resolveYear y = if y < 57 then 2000 + y else 1900 + y := by
  unfold resolveYear
  split <;> ring

/-- C7 witness: the pivot at `y = 8` (the ISS record's epoch year). -/
theorem c7_epoch_year_pivot_witness :
    (0 : ℤ) ≤ 8 ∧ (8 : ℤ) ≤ 99 ∧
      resolveYear 8 = if (8 : ℤ) < 57 then 2000 + 8 else 1900 + 8 :=
  ⟨by decide, by decide, c7_epoch_year_pivot 8 (by decide) (by decide)⟩

/-- C8: for a record built by `tle_to_dataframe` whose line 1 carries
two-digit year `y` and fractional day-of-year `d ≥ 1`, the stored epoch is
exactly January 1, 00:00:00 of the resolved year plus `d − 1` days, with
exact (rational) fractional-day arithmetic. -/
theorem c8_epoch_is_jan1_plus_fractional_days (name line1 line2 : Line) (row : TleRow)
    (y : ℤ) (d : ℚ)
    (hy : pyInt? (pySlice line1 18 20) = some y)
    (hd : pyFloat? (pySlice line1 20 32) = some d)
    (hd1 : 1 ≤ d)
    (hrow : buildRow [name, line1, line2] = some row) :
    row.epoch = (jan1 (resolveYear y)).addDays (d - 1) := by
  obtain ⟨year, day, catalog, incl, raan, ecc, argp, ma, mm, rev,
    h1, h2, _, _, _, _, _, _, _, _, _, hr⟩ := buildRow_some_inv hrow
  rw [hy] at h1
  rw [hd] at h2
  cases h1
  cases h2
  subst hr
  show (jan1 (resolveYear y)).addDays (ratSub d 1) = (jan1 (resolveYear y)).addDays (d - 1)
  rw [ratSub_eq]

/-- C8 witness: the epoch of the ISS row (year 08, day 264.51782528). -/
theorem c8_epoch_is_jan1_plus_fractional_days_witness :
    pyInt? (pySlice issL1 18 20) = some 8 ∧
      pyFloat? (pySlice issL1 20 32) = some (decValue false 26451782528 8) ∧
      (1 : ℚ) ≤ decValue false 26451782528 8 ∧
      issRow.epoch = (jan1 (resolveYear 8)).addDays (decValue false 26451782528 8 - 1) :=
  ⟨by decide, by decide, by decide,
    c8_epoch_is_jan1_plus_fractional_days issName issL1 issL2 issRow 8
      (decValue false 26451782528 8) (by decide) (by decide) (by decide) buildRow_iss⟩

/-- C9: for mean motion `m > 0` and eccentricity `e ∈ [0, 1)`, the derived
altitudes of lines 133–134 satisfy `perigee ≤ apogee`. -/
theorem c9_perigee_le_apogee (m e : ℝ) (hm : 0 < m) (he0 : 0 ≤ e) (he1 : e < 1) :
    perigeeAlt m e ≤ apogeeAlt m e := by
  have hn : 0 < meanMotionRad m := by
    unfold meanMotionRad
    apply div_pos
    · nlinarith [Real.pi_pos]
    · norm_num
  have hx : (0 : ℝ) < 398600.4418 / (meanMotionRad m * meanMotionRad m) :=
    div_pos (by norm_num) (mul_pos hn hn)
  have ha : 0 < semiMajorAxis m := by
    unfold semiMajorAxis
    exact Real.rpow_pos_of_pos hx _
  unfold apogeeAlt perigeeAlt
  nlinarith [mul_nonneg ha.le he0]

/-- C9 witness: `perigee ≤ apogee` at `m = 1`, `e = 0`. -/
theorem c9_perigee_le_apogee_witness :
    (0 : ℝ) < 1 ∧ (0 : ℝ) ≤ 0 ∧ (0 : ℝ) < 1 ∧ perigeeAlt 1 0 ≤ apogeeAlt 1 0 :=
  ⟨by norm_num, le_refl 0, by norm_num,
    c9_perigee_le_apogee 1 0 (by norm_num) (le_refl 0) (by norm_num)⟩

/-- C10: whenever `tle_to_dataframe`'s per-record conversion succeeds on a
3-line record, the standalone `parse_tle` on the same two element lines also
succeeds, and its six orbital elements (and its epoch string, columns
19–32 of line 1) agree exactly with the assembled row's fields — the two
parsing paths slice identical fixed columns, including the eccentricity as
`'0.'` + columns 27–33. -/
theorem c10_parse_paths_agree (name line1 line2 : Line) (row : TleRow)
    (hrow : buildRow [name, line1, line2] = some row) :
    parse_tle line1 line2 = some
      { epoch := pySlice line1 18 32,
        inclination := row.inclination, raan := row.raan,
        eccentricity := row.eccentricity, arg_perigee := row.arg_perigee,
        mean_anomaly := row.mean_anomaly, mean_motion := row.mean_motion } := by
  obtain ⟨year, day, catalog, incl, raan, ecc, argp, ma, mm, rev,
    _, _, _, h4, h5, h6, h7, h8, h9, _, _, hr⟩ := buildRow_some_inv hrow
  subst hr
  unfold parse_tle
  rw [h4, h5, h6, h7, h8, h9]

/-- C10 witness: the two parsing paths agree on the ISS element lines. -/
theorem c10_parse_paths_agree_witness :
    parse_tle issL1 issL2 = some
      { epoch := pySlice issL1 18 32,
        inclination := issRow.inclination, raan := issRow.raan,
        eccentricity := issRow.eccentricity, arg_perigee := issRow.arg_perigee,
        mean_anomaly := issRow.mean_anomaly, mean_motion := issRow.mean_motion } :=
  c10_parse_paths_agree issName issL1 issL2 issRow buildRow_iss
